import Mathlib

/-!
Shallow embedding of the minimum-Xmx bisection procedure of
tools/run_on_app.py (functions find_min_xmx and run_with_options).

Memory amounts and exit codes are Python 2 arbitrary-precision integers,
embedded as Int.  Python 2 integer division of ints is floor division,
which for the positive literal divisor 2 coincides with Lean's Int
division (Euclidean division), so (working - not_working) / 2 below is
exactly the source expression.

The subprocess attempt is abstracted as a function from the candidate
heap ceiling to an Outcome; the loop itself is embedded fuel-indexed
(one unit of fuel per loop iteration), with none marking fuel
exhaustion, so that iteration-count claims can be stated exactly.
-/

namespace RunOnApp

/-- Magic exit code signalling that the program OOM'ed
(OOM_EXIT_CODE = 42 in run_on_app.py). -/
def OOM_EXIT_CODE : Int := 42

/-- Negative returncode -9: child terminated by signal 9, used as the
timeout-kill marker (TIMEOUT_KILL_CODE in run_on_app.py). -/
def TIMEOUT_KILL_CODE : Int := -9

/-- The tri-state-plus-error outcome of one attempt, as find_min_xmx
dispatches on the exit code returned by run_with_options:
0 is success, OOM_EXIT_CODE is out-of-memory, TIMEOUT_KILL_CODE is a
timeout kill, and any other non-zero code aborts the search. -/
inductive Outcome where
  | success : Outcome
  | oom : Outcome
  | timeout : Outcome
  | otherFailure (code : Int) : Outcome
  deriving DecidableEq, Repr

/-- Line 248 of run_on_app.py:
next_candidate = working - ((working - not_working)/2). -/
def next_candidate (working not_working : Int) : Int :=
  working - (working - not_working) / 2

/-- Lines 260-267 of run_on_app.py: the interval update of one loop
iteration.  exit_code == 0 lowers working to the candidate;
TIMEOUT_KILL_CODE and OOM_EXIT_CODE raise not_working to the candidate.
otherFailure never reaches this update (the loop returns first);
it is mapped to the identity here. -/
def update (not_working working : Int) : Outcome → Int × Int
  | Outcome.success => (not_working, next_candidate working not_working)
  | Outcome.timeout => (next_candidate working not_working, working)
  | Outcome.oom => (next_candidate working not_working, working)
  | Outcome.otherFailure _ => (not_working, working)

/-- Observable result of one run of the find_min_xmx search loop:
the candidates attempted in order, the returned exit status
(2 on the non-OOM/timeout abort of line 259, else 0), and the
normal result interval (the pair printed as Found range, line 270),
present exactly on normal completion. -/
structure EngineResult where
  attempts : List Int
  exitCode : Int
  interval : Option (Int × Int)
  deriving DecidableEq, Repr

/-- Lines 247-271 of run_on_app.py: the bisection loop of find_min_xmx,
fuel-indexed.  While working - not_working > range the loop attempts
next_candidate; a non-OOM/timeout failure returns exit status 2 at once,
otherwise the interval is updated per the outcome and the loop repeats.
On loop exit the pair (not_working, working) is the reported range and
the exit status is 0.  Fuel counts loop iterations; none means the fuel
was exhausted before the loop finished. -/
def find_min_xmx_loop (attempt : Int → Outcome) (range : Int) :
    Nat → Int → Int → Option EngineResult
  | fuel, not_working, working =>
    if working - not_working ≤ range then
      some { attempts := [], exitCode := 0,
             interval := some (not_working, working) }
    else
      match fuel with
      | 0 => none
      | fuel + 1 =>
        match attempt (next_candidate working not_working) with
        | Outcome.otherFailure _ =>
            some { attempts := [next_candidate working not_working],
                   exitCode := 2, interval := none }
        | Outcome.success =>
            (find_min_xmx_loop attempt range fuel
                (update not_working working Outcome.success).1
                (update not_working working Outcome.success).2).map
              (fun r =>
                { r with attempts := next_candidate working not_working :: r.attempts })
        | Outcome.timeout =>
            (find_min_xmx_loop attempt range fuel
                (update not_working working Outcome.timeout).1
                (update not_working working Outcome.timeout).2).map
              (fun r =>
                { r with attempts := next_candidate working not_working :: r.attempts })
        | Outcome.oom =>
            (find_min_xmx_loop attempt range fuel
                (update not_working working Outcome.oom).1
                (update not_working working Outcome.oom).2).map
              (fun r =>
                { r with attempts := next_candidate working not_working :: r.attempts })

/-- Lines 534-543 of run_on_app.py: the exit status run_with_options
hands back for a subprocess that exited with raw_exit, given whether
the captured stderr text contains the java.lang.OutOfMemoryError
marker.  A non-zero exit with the marker becomes OOM_EXIT_CODE; a
non-zero exit without it is returned unchanged; a zero exit falls
through to the normal return 0. -/
def run_with_options_code (raw_exit : Int) (stderr_has_oom_marker : Bool) : Int :=
  if raw_exit ≠ 0 then
    if stderr_has_oom_marker then OOM_EXIT_CODE else raw_exit
  else 0

/-- Lines 256-267 of run_on_app.py, read as a classification of the
exit code returned by run_with_options: 0 is success; a code outside
the OOM_EXIT_CODE / TIMEOUT_KILL_CODE pair is the aborting failure;
TIMEOUT_KILL_CODE is a timeout; the remaining case (asserted to be
OOM_EXIT_CODE) is out-of-memory. -/
def outcome_of_code (exit_code : Int) : Outcome :=
  if exit_code = 0 then Outcome.success
  else if exit_code ≠ OOM_EXIT_CODE ∧ exit_code ≠ TIMEOUT_KILL_CODE then
    Outcome.otherFailure exit_code
  else if exit_code = TIMEOUT_KILL_CODE then Outcome.timeout
  else Outcome.oom

/-- The composite outcome of one attempt: raw subprocess exit plus
stderr marker through run_with_options, then find_min_xmx's dispatch. -/
def attempt_outcome (raw_exit : Int) (stderr_has_oom_marker : Bool) : Outcome :=
  outcome_of_code (run_with_options_code raw_exit stderr_has_oom_marker)

/-- Python truthiness of an optparse int option: None and 0 are falsy,
any other value truthy. -/
def py_truthy : Option Int → Bool
  | none => false
  | some v => decide (v ≠ 0)

/-- Lines 235-240 of run_on_app.py: the initial failing bound.
The override is consulted by truthiness; otherwise 128 for the d8
compiler, else 1024. -/
def initial_not_working (find_min_xmx_min_memory : Option Int)
    (compiler : Option String) : Int :=
  if py_truthy find_min_xmx_min_memory then find_min_xmx_min_memory.getD 0
  else if compiler = some "d8" then 128
  else 1024

/-- Lines 241-244 of run_on_app.py: the initial working bound.
The override is consulted by truthiness; otherwise 1024 * 8. -/
def initial_working (find_min_xmx_max_memory : Option Int) : Int :=
  if py_truthy find_min_xmx_max_memory then find_min_xmx_max_memory.getD 0
  else 1024 * 8

/-- A monotonic attempt with true boundary B, in the sense of the
spec's monotonic-correctness property: every ceiling at or above B
succeeds, every ceiling below B fails with a memory-boundary outcome
(out-of-memory or timeout). -/
def monotone_attempt (attempt : Int → Outcome) (B : Int) : Prop :=
  ∀ c : Int, (B ≤ c → attempt c = Outcome.success) ∧
    (c < B → attempt c = Outcome.oom ∨ attempt c = Outcome.timeout)

/-- A Success/non-Success classification monotonic in the ceiling:
the attempt succeeds exactly at ceilings at or above B. -/
def monotone_classification (attempt : Int → Outcome) (B : Int) : Prop :=
  ∀ c : Int, attempt c = Outcome.success ↔ B ≤ c

/-- Ceiling division on Nat, used to state the iteration bound
ceil(log2((working0 - not_working0) / range_size)) exactly. -/
def ceil_div (a b : Nat) : Nat := (a + b - 1) / b

/-- Iteration budget ceil(log2(width / range)) of the spec's
termination property, as a function of the initial interval. -/
def bisect_fuel (width range : Int) : Nat :=
  Nat.clog 2 (ceil_div width.toNat range.toNat)

/-! Unfolding lemmas for the fuel-indexed loop. -/

lemma loop_done (attempt : Int → Outcome) (range : Int) (fuel : Nat)
    (nw w : Int) (h : w - nw ≤ range) :
    find_min_xmx_loop attempt range fuel nw w =
      some { attempts := [], exitCode := 0, interval := some (nw, w) } := by
  cases fuel <;> simp [find_min_xmx_loop, h]

lemma loop_fuel_zero (attempt : Int → Outcome) (range : Int)
    (nw w : Int) (h : ¬ w - nw ≤ range) :
    find_min_xmx_loop attempt range 0 nw w = none := by
  simp [find_min_xmx_loop, h]

lemma loop_step_success (attempt : Int → Outcome) (range : Int) (fuel : Nat)
    (nw w : Int) (h : ¬ w - nw ≤ range)
    (ha : attempt (next_candidate w nw) = Outcome.success) :
    find_min_xmx_loop attempt range (fuel + 1) nw w =
      (find_min_xmx_loop attempt range fuel nw (next_candidate w nw)).map
        (fun r => { r with attempts := next_candidate w nw :: r.attempts }) := by
  simp [find_min_xmx_loop, h, ha, update]

lemma loop_step_timeout (attempt : Int → Outcome) (range : Int) (fuel : Nat)
    (nw w : Int) (h : ¬ w - nw ≤ range)
    (ha : attempt (next_candidate w nw) = Outcome.timeout) :
    find_min_xmx_loop attempt range (fuel + 1) nw w =
      (find_min_xmx_loop attempt range fuel (next_candidate w nw) w).map
        (fun r => { r with attempts := next_candidate w nw :: r.attempts }) := by
  simp [find_min_xmx_loop, h, ha, update]

lemma loop_step_oom (attempt : Int → Outcome) (range : Int) (fuel : Nat)
    (nw w : Int) (h : ¬ w - nw ≤ range)
    (ha : attempt (next_candidate w nw) = Outcome.oom) :
    find_min_xmx_loop attempt range (fuel + 1) nw w =
      (find_min_xmx_loop attempt range fuel (next_candidate w nw) w).map
        (fun r => { r with attempts := next_candidate w nw :: r.attempts }) := by
  simp [find_min_xmx_loop, h, ha, update]

lemma loop_step_abort (attempt : Int → Outcome) (range : Int) (fuel : Nat)
    (nw w code : Int) (h : ¬ w - nw ≤ range)
    (ha : attempt (next_candidate w nw) = Outcome.otherFailure code) :
    find_min_xmx_loop attempt range (fuel + 1) nw w =
      some { attempts := [next_candidate w nw], exitCode := 2, interval := none } := by
  simp [find_min_xmx_loop, h, ha]

/-! Claims. -/

/-- C2: Bracketing invariant.  While the loop condition
working - not_working > range holds (with the tolerance at least 1,
the spec's stated operating condition), each update step either lowers
working to the candidate or raises not_working to the candidate, and
not_working < working holds before and after the step, for every
Success/OutOfMemory/Timeout outcome. -/
theorem find_min_xmx_bracketing_invariant (not_working working range : Int)
    (o : Outcome) (hr : 1 ≤ range) (h0 : not_working < working)
    (hloop : working - not_working > range)
    (ho : o = Outcome.success ∨ o = Outcome.oom ∨ o = Outcome.timeout) :
    (update not_working working o).1 < (update not_working working o).2 ∧
    ((update not_working working o).1 = not_working ∧
      (update not_working working o).2 = next_candidate working not_working ∨
     (update not_working working o).1 = next_candidate working not_working ∧
      (update not_working working o).2 = working) := by
  have hc1 : not_working < next_candidate working not_working := by
    unfold next_candidate; omega
  have hc2 : next_candidate working not_working < working := by
    unfold next_candidate; omega
  rcases ho with h | h | h <;> subst h
  · exact ⟨hc1, Or.inl ⟨rfl, rfl⟩⟩
  · exact ⟨hc2, Or.inr ⟨rfl, rfl⟩⟩
  · exact ⟨hc2, Or.inr ⟨rfl, rfl⟩⟩

theorem find_min_xmx_bracketing_invariant_witness :
    (update 0 100 Outcome.success).1 < (update 0 100 Outcome.success).2 ∧
    ((update 0 100 Outcome.success).1 = 0 ∧
      (update 0 100 Outcome.success).2 = next_candidate 100 0 ∨
     (update 0 100 Outcome.success).1 = next_candidate 100 0 ∧
      (update 0 100 Outcome.success).2 = 100) :=
  find_min_xmx_bracketing_invariant 0 100 32 Outcome.success (by decide)
    (by decide) (by decide) (Or.inl rfl)

/-- C4: Strict progress of the candidate formula.  Whenever
working - not_working > range and the tolerance is at least 1, the
candidate working - floor((working - not_working) / 2) lies strictly
between the bounds. -/
theorem next_candidate_strict_progress (working not_working range : Int)
    (hr : 1 ≤ range) (hw : working - not_working > range) :
    not_working < next_candidate working not_working ∧
    next_candidate working not_working < working := by
  unfold next_candidate; omega

theorem next_candidate_strict_progress_witness :
    (0 : Int) < next_candidate 100 0 ∧ next_candidate 100 0 < 100 :=
  next_candidate_strict_progress 100 0 32 (by decide) (by decide)

/-- C9: Zero-attempt fast path.  When the initial interval is already
within tolerance, the loop body never runs: no candidate is attempted,
the bounds are reported unchanged, and the exit status is the normal 0,
whatever the attempt function and the fuel. -/
theorem find_min_xmx_zero_attempt_fast_path (attempt : Int → Outcome)
    (range : Int) (fuel : Nat) (not_working working : Int)
    (h : working - not_working ≤ range) :
    find_min_xmx_loop attempt range fuel not_working working =
      some { attempts := [], exitCode := 0,
             interval := some (not_working, working) } := by
  cases fuel <;> simp [find_min_xmx_loop, h]

theorem find_min_xmx_zero_attempt_fast_path_witness :
    find_min_xmx_loop (fun _ => Outcome.oom) 32 7 100 132 =
      some { attempts := [], exitCode := 0, interval := some (100, 132) } :=
  find_min_xmx_zero_attempt_fast_path (fun _ => Outcome.oom) 32 7 100 132
    (by decide)

/-- C10: Zero overrides fall back to defaults.  Passing 0 as the
min-memory or max-memory override behaves exactly like omitting the
option, because the checks test Python truthiness of the value:
the lower bound falls back to 128 MB for the d8 compiler and to
1024 MB for any other compiler, and the upper bound falls back to
8192 MB. -/
theorem find_min_xmx_zero_override_defaults (compiler : Option String)
    (h : compiler ≠ some "d8") :
    initial_not_working (some 0) compiler = initial_not_working none compiler ∧
    initial_not_working (some 0) (some "d8") = 128 ∧
    initial_not_working (some 0) compiler = 1024 ∧
    initial_working (some 0) = initial_working none ∧
    initial_working (some 0) = 8192 := by
  have h0 : py_truthy (some 0) = false := by decide
  refine ⟨?_, by decide, ?_, by decide, by decide⟩
  · simp [initial_not_working, h0, py_truthy]
  · simp [initial_not_working, h0, h]

theorem find_min_xmx_zero_override_defaults_witness :
    initial_not_working (some 0) (some "r8") =
        initial_not_working none (some "r8") ∧
    initial_not_working (some 0) (some "d8") = 128 ∧
    initial_not_working (some 0) (some "r8") = 1024 ∧
    initial_working (some 0) = initial_working none ∧
    initial_working (some 0) = 8192 :=
  find_min_xmx_zero_override_defaults (some "r8") (by decide)

/-- C5 counterexample: a process exiting with raw status 42 (the magic
OOM exit code) whose stderr does not contain the out-of-memory marker
is a non-zero exit distinct from the timeout-kill code, yet the search
classifies it as OutOfMemory, not as OtherFailure as the claim states. -/
theorem oom_code_without_marker_cex :
    attempt_outcome 42 false = Outcome.oom ∧
    (42 : Int) ≠ 0 ∧ (42 : Int) ≠ TIMEOUT_KILL_CODE := by
  decide

/-- C5 (amended): outcome classification.  The outcome is Success
exactly when the process exits with status 0; it is OutOfMemory when
the process fails and its failure output contains the out-of-memory
marker, regardless of the raw exit code; every other non-zero exit
other than the timeout-kill signal code and the magic OOM exit code
itself is classified as OtherFailure carrying the raw code; a raw
non-zero exit equal to the magic OOM exit code without the marker is
also classified as OutOfMemory. -/
theorem run_with_options_outcome_classification (raw : Int) (m : Bool) :
    (attempt_outcome raw m = Outcome.success ↔ raw = 0) ∧
    (raw ≠ 0 → m = true → attempt_outcome raw m = Outcome.oom) ∧
    (raw ≠ 0 → m = false → raw ≠ TIMEOUT_KILL_CODE → raw ≠ OOM_EXIT_CODE →
      attempt_outcome raw m = Outcome.otherFailure raw) ∧
    (raw ≠ 0 → m = false → raw = OOM_EXIT_CODE →
      attempt_outcome raw m = Outcome.oom) := by
  by_cases h0 : raw = 0 <;> by_cases h9 : raw = (-9 : Int) <;>
    by_cases h42 : raw = (42 : Int) <;> cases m <;>
    simp_all [attempt_outcome, run_with_options_code, outcome_of_code,
      OOM_EXIT_CODE, TIMEOUT_KILL_CODE]

theorem run_with_options_outcome_classification_witness :
    attempt_outcome 0 false = Outcome.success ∧
    attempt_outcome 1 true = Outcome.oom ∧
    attempt_outcome 17 false = Outcome.otherFailure 17 ∧
    attempt_outcome 42 false = Outcome.oom :=
  ⟨(run_with_options_outcome_classification 0 false).1.mpr rfl,
   (run_with_options_outcome_classification 1 true).2.1 (by decide) rfl,
   (run_with_options_outcome_classification 17 false).2.2.1 (by decide) rfl
     (by decide) (by decide),
   (run_with_options_outcome_classification 42 false).2.2.2 (by decide) rfl
     (by decide)⟩

/-- C7 counterexample: with an attempt that fails with OtherFailure
carrying code 17 on the very first candidate, the search returns the
fixed exit status 2 and no interval; the surfaced status is not 17. -/
theorem other_failure_code_not_propagated_cex :
    find_min_xmx_loop (fun _ => Outcome.otherFailure 17) 32 1 128 8192 =
      some { attempts := [4160], exitCode := 2, interval := none } ∧
    (2 : Int) ≠ 17 := by
  constructor
  · rfl
  · decide

/-- C7 (amended): when an attempt fails with OtherFailure carrying any
code c on the first candidate, the search stops at once and surfaces
the fixed exit status 2 to its caller; the specific code c is only
printed, never propagated. -/
theorem find_min_xmx_other_failure_returns_two (attempt : Int → Outcome)
    (range : Int) (fuel : Nat) (nw w code : Int) (h : range < w - nw)
    (ha : attempt (next_candidate w nw) = Outcome.otherFailure code) :
    find_min_xmx_loop attempt range (fuel + 1) nw w =
      some { attempts := [next_candidate w nw], exitCode := 2,
             interval := none } :=
  loop_step_abort attempt range fuel nw w code (by omega) ha

theorem find_min_xmx_other_failure_returns_two_witness :
    find_min_xmx_loop (fun _ => Outcome.otherFailure 17) 32 1 128 8192 =
      some { attempts := [next_candidate 8192 128], exitCode := 2,
             interval := none } :=
  find_min_xmx_other_failure_returns_two (fun _ => Outcome.otherFailure 17)
    32 0 128 8192 17 (by decide) rfl

/-! Termination machinery: the interval width at least halves each
iteration, so fuel range * 2 ^ fuel covers width w - nw. -/

lemma loop_terminates_of_bound (attempt : Int → Outcome) (range : Int)
    (hr : 1 ≤ range) :
    ∀ (fuel : Nat) (nw w : Int), w - nw ≤ range * 2 ^ fuel →
      (find_min_xmx_loop attempt range fuel nw w).isSome := by
  intro fuel
  induction fuel with
  | zero =>
    intro nw w hb
    have hc : w - nw ≤ range := by simpa using hb
    rw [loop_done _ _ _ _ _ hc]; rfl
  | succ fuel ih =>
    intro nw w hb
    by_cases hc : w - nw ≤ range
    · rw [loop_done _ _ _ _ _ hc]; rfl
    · have h2 : range * 2 ^ (fuel + 1) = 2 * (range * 2 ^ fuel) := by ring
      cases ha : attempt (next_candidate w nw) with
      | success =>
        rw [loop_step_success _ _ _ _ _ hc ha]
        have hs : (find_min_xmx_loop attempt range fuel nw
            (next_candidate w nw)).isSome := by
          apply ih
          unfold next_candidate
          omega
        rcases Option.isSome_iff_exists.mp hs with ⟨r, hrr⟩
        rw [hrr]; rfl
      | timeout =>
        rw [loop_step_timeout _ _ _ _ _ hc ha]
        have hs : (find_min_xmx_loop attempt range fuel
            (next_candidate w nw) w).isSome := by
          apply ih
          unfold next_candidate
          omega
        rcases Option.isSome_iff_exists.mp hs with ⟨r, hrr⟩
        rw [hrr]; rfl
      | oom =>
        rw [loop_step_oom _ _ _ _ _ hc ha]
        have hs : (find_min_xmx_loop attempt range fuel
            (next_candidate w nw) w).isSome := by
          apply ih
          unfold next_candidate
          omega
        rcases Option.isSome_iff_exists.mp hs with ⟨r, hrr⟩
        rw [hrr]; rfl
      | otherFailure code =>
        rw [loop_step_abort _ _ _ _ _ code hc ha]; rfl

lemma width_le_bisect_fuel_bound (width range : Int)
    (hr : 1 ≤ range) (hw : 0 ≤ width) :
    width ≤ range * 2 ^ bisect_fuel width range := by
  have hq : width.toNat ≤ range.toNat * ceil_div width.toNat range.toNat := by
    unfold ceil_div
    have hdm := Nat.div_add_mod (width.toNat + range.toNat - 1) range.toNat
    have hm : (width.toNat + range.toNat - 1) % range.toNat < range.toNat :=
      Nat.mod_lt _ (by omega)
    omega
  have hclog : ceil_div width.toNat range.toNat ≤
      2 ^ Nat.clog 2 (ceil_div width.toNat range.toNat) :=
    Nat.le_pow_clog (by norm_num) _
  have hnat : width.toNat ≤
      range.toNat * 2 ^ Nat.clog 2 (ceil_div width.toNat range.toNat) :=
    le_trans hq (Nat.mul_le_mul_left _ hclog)
  have hcast : (width.toNat : Int) ≤
      (range.toNat : Int) * 2 ^ Nat.clog 2 (ceil_div width.toNat range.toNat) := by
    exact_mod_cast hnat
  unfold bisect_fuel
  rw [Int.toNat_of_nonneg hw, Int.toNat_of_nonneg (by omega : (0 : Int) ≤ range)]
    at hcast
  exact hcast

/-- C3 counterexample: with interval (0, 5) of width 5, a Success
outcome shrinks the width to 3 = ceil(5/2), not floor(5/2) = 2 as the
claim states; a failure outcome shrinks it to floor(5/2) = 2, not
ceil(5/2) = 3.  The floor/ceil roles in the claim are swapped. -/
theorem find_min_xmx_halving_direction_cex :
    (update 0 5 Outcome.success).2 - (update 0 5 Outcome.success).1 = 3 ∧
    (update 0 5 Outcome.oom).2 - (update 0 5 Outcome.oom).1 = 2 ∧
    (5 : Int) / 2 = 2 ∧ ¬ ((3 : Int) = 2) := by
  decide

/-- C3 (amended): termination bound.  For every initial pair with
not_working0 < working0 and every range_size at least 1, under a
Success/non-Success classification monotonic in the ceiling, the loop
finishes within ceil(log2((working0 - not_working0) / range_size))
iterations of fuel (each iteration shrinks the interval width from W
to ceil(W/2) on success and to floor(W/2) on failure). -/
theorem find_min_xmx_termination_bound (attempt : Int → Outcome)
    (B not_working0 working0 range : Int)
    (hmono : monotone_classification attempt B)
    (h0 : not_working0 < working0) (hr : 1 ≤ range) :
    (find_min_xmx_loop attempt range
        (bisect_fuel (working0 - not_working0) range)
        not_working0 working0).isSome :=
  loop_terminates_of_bound attempt range hr _ _ _
    (width_le_bisect_fuel_bound _ _ hr (by omega))

theorem find_min_xmx_termination_bound_witness :
    (find_min_xmx_loop
        (fun c => if 4000 ≤ c then Outcome.success else Outcome.oom) 32
        (bisect_fuel (8192 - 128) 32) 128 8192).isSome :=
  find_min_xmx_termination_bound
    (fun c => if 4000 ≤ c then Outcome.success else Outcome.oom)
    4000 128 8192 32
    (fun c => by by_cases h : 4000 ≤ c <;> simp [h]) (by decide) (by decide)

/-- Bracketing invariant of the monotone search: starting inside
nw < B and B ≤ w with enough fuel, the loop completes normally and the
final pair still brackets B within the tolerance. -/
lemma loop_mono_bracket (attempt : Int → Outcome) (B range : Int)
    (hmono : monotone_attempt attempt B) (hr : 1 ≤ range) :
    ∀ (fuel : Nat) (nw w : Int), nw < B → B ≤ w →
      w - nw ≤ range * 2 ^ fuel →
      ∃ trace nwf wf,
        find_min_xmx_loop attempt range fuel nw w =
          some { attempts := trace, exitCode := 0,
                 interval := some (nwf, wf) } ∧
        nwf < B ∧ B ≤ wf ∧ wf - nwf ≤ range := by
  intro fuel
  induction fuel with
  | zero =>
    intro nw w h1 h2 hb
    have hc : w - nw ≤ range := by simpa using hb
    exact ⟨[], nw, w, loop_done _ _ _ _ _ hc, h1, h2, hc⟩
  | succ fuel ih =>
    intro nw w h1 h2 hb
    by_cases hc : w - nw ≤ range
    · exact ⟨[], nw, w, loop_done _ _ _ _ _ hc, h1, h2, hc⟩
    · have h2' : range * 2 ^ (fuel + 1) = 2 * (range * 2 ^ fuel) := by ring
      by_cases hB : B ≤ next_candidate w nw
      · have ha := (hmono (next_candidate w nw)).1 hB
        have hbound : next_candidate w nw - nw ≤ range * 2 ^ fuel := by
          unfold next_candidate
          omega
        obtain ⟨trace, nwf, wf, heq, hh⟩ :=
          ih nw (next_candidate w nw) h1 hB hbound
        refine ⟨next_candidate w nw :: trace, nwf, wf, ?_, hh⟩
        rw [loop_step_success _ _ _ _ _ hc ha, heq]
        rfl
      · push_neg at hB
        have hbound : w - next_candidate w nw ≤ range * 2 ^ fuel := by
          unfold next_candidate
          omega
        obtain ⟨trace, nwf, wf, heq, hh⟩ :=
          ih (next_candidate w nw) w hB h2 hbound
        rcases (hmono (next_candidate w nw)).2 hB with ha | ha
        · refine ⟨next_candidate w nw :: trace, nwf, wf, ?_, hh⟩
          rw [loop_step_oom _ _ _ _ _ hc ha, heq]
          rfl
        · refine ⟨next_candidate w nw :: trace, nwf, wf, ?_, hh⟩
          rw [loop_step_timeout _ _ _ _ _ hc ha, heq]
          rfl

/-- C1: Monotonic correctness of the bisection.  For every attempt
function monotonic in the ceiling with true boundary B (Success at or
above B, a memory-boundary failure below), initial bounds with
not_working0 < B ≤ working0 and tolerance at least 1, the search
terminates normally with a final pair bracketing B within the
tolerance: not_working < B ≤ working and working - not_working ≤
range_size. -/
theorem find_min_xmx_monotonic_correctness (attempt : Int → Outcome)
    (B not_working0 working0 range : Int)
    (hmono : monotone_attempt attempt B) (h1 : not_working0 < B)
    (h2 : B ≤ working0) (hr : 1 ≤ range) :
    ∃ (fuel : Nat) (r : EngineResult) (nw w : Int),
      find_min_xmx_loop attempt range fuel not_working0 working0 = some r ∧
      r.interval = some (nw, w) ∧ nw < B ∧ B ≤ w ∧ w - nw ≤ range := by
  obtain ⟨trace, nwf, wf, heq, ha, hb', hc⟩ :=
    loop_mono_bracket attempt B range hmono hr
      (bisect_fuel (working0 - not_working0) range) not_working0 working0
      h1 h2 (width_le_bisect_fuel_bound _ _ hr (by omega))
  exact ⟨_, _, nwf, wf, heq, rfl, ha, hb', hc⟩

theorem find_min_xmx_monotonic_correctness_witness :
    ∃ (fuel : Nat) (r : EngineResult) (nw w : Int),
      find_min_xmx_loop
          (fun c => if 4000 ≤ c then Outcome.success else Outcome.oom)
          32 fuel 128 8192 = some r ∧
      r.interval = some (nw, w) ∧ nw < 4000 ∧ 4000 ≤ w ∧ w - nw ≤ 32 :=
  find_min_xmx_monotonic_correctness
    (fun c => if 4000 ≤ c then Outcome.success else Outcome.oom)
    4000 128 8192 32
    (fun c => ⟨fun h => by simp [h],
      fun h => Or.inl (by simp [show ¬ (4000 ≤ c) by omega])⟩)
    (by decide) (by decide) (by decide)

/-- C6: OtherFailure short-circuit.  If any attempted candidate of a
run returns OtherFailure, that candidate is the last one attempted
(the loop stops immediately), the run produces no normal Found-range
interval, and the returned exit status is 2, distinct from 0 and from
the 0 of a completed search. -/
theorem find_min_xmx_other_failure_short_circuit (attempt : Int → Outcome)
    (range : Int) :
    ∀ (fuel : Nat) (nw w : Int) (r : EngineResult),
      find_min_xmx_loop attempt range fuel nw w = some r →
      ∀ c ∈ r.attempts, ∀ code, attempt c = Outcome.otherFailure code →
        (∃ pre, r.attempts = pre ++ [c]) ∧ r.interval = none ∧
        r.exitCode = 2 ∧ r.exitCode ≠ 0 := by
  intro fuel
  induction fuel with
  | zero =>
    intro nw w r hr' c hc code hcode
    by_cases h : w - nw ≤ range
    · rw [loop_done _ _ _ _ _ h] at hr'
      cases hr'
      simp at hc
    · rw [loop_fuel_zero _ _ _ _ h] at hr'
      cases hr'
  | succ fuel ih =>
    intro nw w r hr' c hc code hcode
    by_cases h : w - nw ≤ range
    · rw [loop_done _ _ _ _ _ h] at hr'
      cases hr'
      simp at hc
    · cases ha : attempt (next_candidate w nw) with
      | otherFailure k =>
        rw [loop_step_abort _ _ _ _ _ k h ha] at hr'
        cases hr'
        simp at hc
        subst hc
        exact ⟨⟨[], rfl⟩, rfl, rfl, by simp⟩
      | success =>
        rw [loop_step_success _ _ _ _ _ h ha] at hr'
        rcases Option.map_eq_some'.mp hr' with ⟨r', heq, hpre⟩
        subst hpre
        simp at hc
        rcases hc with hc | hc
        · subst hc
          rw [ha] at hcode
          cases hcode
        · obtain ⟨⟨pre, hpre'⟩, hint, hexit, hne⟩ :=
            ih nw (next_candidate w nw) r' heq c hc code hcode
          exact ⟨⟨next_candidate w nw :: pre, by simp [hpre']⟩,
            hint, hexit, hne⟩
      | timeout =>
        rw [loop_step_timeout _ _ _ _ _ h ha] at hr'
        rcases Option.map_eq_some'.mp hr' with ⟨r', heq, hpre⟩
        subst hpre
        simp at hc
        rcases hc with hc | hc
        · subst hc
          rw [ha] at hcode
          cases hcode
        · obtain ⟨⟨pre, hpre'⟩, hint, hexit, hne⟩ :=
            ih (next_candidate w nw) w r' heq c hc code hcode
          exact ⟨⟨next_candidate w nw :: pre, by simp [hpre']⟩,
            hint, hexit, hne⟩
      | oom =>
        rw [loop_step_oom _ _ _ _ _ h ha] at hr'
        rcases Option.map_eq_some'.mp hr' with ⟨r', heq, hpre⟩
        subst hpre
        simp at hc
        rcases hc with hc | hc
        · subst hc
          rw [ha] at hcode
          cases hcode
        · obtain ⟨⟨pre, hpre'⟩, hint, hexit, hne⟩ :=
            ih (next_candidate w nw) w r' heq c hc code hcode
          exact ⟨⟨next_candidate w nw :: pre, by simp [hpre']⟩,
            hint, hexit, hne⟩

theorem find_min_xmx_other_failure_short_circuit_witness :
    (∃ pre, ({ attempts := [50], exitCode := 2, interval := none } : EngineResult).attempts = pre ++ [(50 : Int)]) ∧
    ({ attempts := [50], exitCode := 2, interval := none } : EngineResult).interval = none ∧
    ({ attempts := [50], exitCode := 2, interval := none } : EngineResult).exitCode = 2 ∧
    ({ attempts := [50], exitCode := 2, interval := none } : EngineResult).exitCode ≠ 0 :=
  find_min_xmx_other_failure_short_circuit (fun _ => Outcome.otherFailure 5)
    32 1 0 100 { attempts := [50], exitCode := 2, interval := none }
    (by decide) 50 (by decide) 5 rfl

/-- C8: Non-monotonic safety.  Failure-like outcomes (OutOfMemory and
Timeout) never change working in the update step; consequently, on any
normal completion, the final working bound is either the initial
working0 or some attempted candidate on which attempt returned
Success.  A spurious Timeout above the true boundary can therefore
never make the engine report a working value below the boundary. -/
theorem find_min_xmx_non_monotonic_safety (attempt : Int → Outcome)
    (range : Int) :
    ∀ (fuel : Nat) (nw w : Int) (r : EngineResult) (nw' w' : Int),
      find_min_xmx_loop attempt range fuel nw w = some r →
      r.interval = some (nw', w') →
      ((update nw w Outcome.oom).2 = w ∧
       (update nw w Outcome.timeout).2 = w) ∧
      (w' = w ∨ ∃ c ∈ r.attempts, attempt c = Outcome.success ∧ w' = c) := by
  intro fuel
  induction fuel with
  | zero =>
    intro nw w r nw' w' hr' hi
    by_cases h : w - nw ≤ range
    · rw [loop_done _ _ _ _ _ h] at hr'
      cases hr'
      simp at hi
      exact ⟨⟨rfl, rfl⟩, Or.inl hi.2.symm⟩
    · rw [loop_fuel_zero _ _ _ _ h] at hr'
      cases hr'
  | succ fuel ih =>
    intro nw w r nw' w' hr' hi
    by_cases h : w - nw ≤ range
    · rw [loop_done _ _ _ _ _ h] at hr'
      cases hr'
      simp at hi
      exact ⟨⟨rfl, rfl⟩, Or.inl hi.2.symm⟩
    · refine ⟨⟨rfl, rfl⟩, ?_⟩
      cases ha : attempt (next_candidate w nw) with
      | otherFailure k =>
        rw [loop_step_abort _ _ _ _ _ k h ha] at hr'
        cases hr'
        cases hi
      | success =>
        rw [loop_step_success _ _ _ _ _ h ha] at hr'
        rcases Option.map_eq_some'.mp hr' with ⟨r', heq, hpre⟩
        subst hpre
        rcases (ih nw (next_candidate w nw) r' nw' w' heq hi).2 with
          hw' | ⟨c, hc, hs, hw'⟩
        · exact Or.inr ⟨next_candidate w nw, by simp, ha, hw'⟩
        · exact Or.inr ⟨c, by simp [hc], hs, hw'⟩
      | timeout =>
        rw [loop_step_timeout _ _ _ _ _ h ha] at hr'
        rcases Option.map_eq_some'.mp hr' with ⟨r', heq, hpre⟩
        subst hpre
        rcases (ih (next_candidate w nw) w r' nw' w' heq hi).2 with
          hw' | ⟨c, hc, hs, hw'⟩
        · exact Or.inl hw'
        · exact Or.inr ⟨c, by simp [hc], hs, hw'⟩
      | oom =>
        rw [loop_step_oom _ _ _ _ _ h ha] at hr'
        rcases Option.map_eq_some'.mp hr' with ⟨r', heq, hpre⟩
        subst hpre
        rcases (ih (next_candidate w nw) w r' nw' w' heq hi).2 with
          hw' | ⟨c, hc, hs, hw'⟩
        · exact Or.inl hw'
        · exact Or.inr ⟨c, by simp [hc], hs, hw'⟩

theorem find_min_xmx_non_monotonic_safety_witness :
    ((update 0 64 Outcome.oom).2 = 64 ∧
     (update 0 64 Outcome.timeout).2 = 64) ∧
    ((64 : Int) = 64 ∨ ∃ c ∈ ({ attempts := [32], exitCode := 0, interval := some (32, 64) } : EngineResult).attempts,
      (fun _ => Outcome.timeout : Int → Outcome) c = Outcome.success ∧
        (64 : Int) = c) :=
  find_min_xmx_non_monotonic_safety (fun _ => Outcome.timeout) 32 1 0 64
    { attempts := [32], exitCode := 0, interval := some (32, 64) } 32 64
    (by decide) rfl

end RunOnApp
